import Mathlib

/-!
Verification of the QR-code generation pipeline (Notion batch sweep and
webhook ingress) against its natural-language specification.

The JavaScript sources are shallowly embedded: remote I/O is modelled by
environments supplying each call's result, thrown exceptions by Except,
and the network activity of a run by an explicit trace of RemoteCall
values recording which calls were issued inside the rate limiter's
schedule wrapper.
-/

namespace QrPipeline

/-- Result of one fetch: the ok flag, HTTP status and error body text. -/

structure HttpResponse where
  ok : Bool
  status : Nat
  body : String
  deriving DecidableEq, Repr

/-- Outcome of fetchWithRetry: a successful response, a thrown Error with
its message, or undefined when the loop body never runs (retries = 0). -/

inductive FetchResult where
  | success (res : HttpResponse)
  | failure (msg : String)
  | undef
  deriving DecidableEq, Repr

/-- Observable behaviour of one fetchWithRetry run: its result, how many
attempts were made, the waits inserted between consecutive attempts, and
the diagnostic log entries (status, body) emitted per failed attempt. -/

structure RetryOutcome where
  result : FetchResult
  attemptsMade : Nat
  waits : List Nat
  logs : List (Nat × String)
  deriving DecidableEq, Repr

/-- Loop body of fetchWithRetry from notionQRGenerator.js lines 20-30,
run over the list of attempt numbers still to perform. respond gives
the response the network returns to a given attempt number. On a failed
attempt that is not the last, the code sleeps delay * attempt; on the
last failed attempt it throws an Error naming the retry count and URL. -/

def runAttempts (url : String) (respond : Nat → HttpResponse)
    (retries delay : Nat) : List Nat → RetryOutcome
  | [] => ⟨.undef, 0, [], []⟩
  | a :: rest =>
    if (respond a).ok then ⟨.success (respond a), 1, [], []⟩
    else if rest.isEmpty then
      ⟨.failure ("Failed after " ++ toString retries ++ " attempts: " ++ url),
        1, [], [((respond a).status, (respond a).body)]⟩
    else
      ⟨(runAttempts url respond retries delay rest).result,
        (runAttempts url respond retries delay rest).attemptsMade + 1,
        delay * a :: (runAttempts url respond retries delay rest).waits,
        ((respond a).status, (respond a).body) ::
          (runAttempts url respond retries delay rest).logs⟩

/-- Model of fetchWithRetry (notionQRGenerator.js lines 20-30): the for
loop runs attempt = 1 .. retries. -/

def fetchWithRetry (url : String) (respond : Nat → HttpResponse)
    (retries delay : Nat) : RetryOutcome :=
  runAttempts url respond retries delay (List.range' 1 retries)

/-- Prefix test on character lists, used to state substring containment. -/

def listIsPfx : List Char → List Char → Bool
  | [], _ => true
  | _ :: _, [] => false
  | a :: as, b :: bs => a == b && listIsPfx as bs

/-- Containment of pat in s as character lists. -/

def listHasSub (pat : List Char) : List Char → Bool
  | [] => pat.isEmpty
  | c :: rest => listIsPfx pat (c :: rest) || listHasSub pat rest

/-- Substring test used to state what an error message carries. -/

def strContains (s pat : String) : Bool :=
  listHasSub pat.toList s.toList

/-- Notion unique_id property value: a prefix string and a number, shown
by the code as prefix-number. -/

structure NotionUniqueId where
  pfx : String
  num : Int
  deriving DecidableEq, Repr

/-- One result item of the database query (or one retrieved page).
uuidProp models properties UUID formula string when the UUID property is
present (none = property absent, so reading .formula throws); idProp
models properties ID unique_id likewise. nativeId is the native page id
carried by every Notion page object; the batch code never reads it. -/

structure NotionItem where
  nativeId : String
  uuidProp : Option String
  idProp : Option NotionUniqueId
  deriving DecidableEq, Repr

/-- The qrCodeData object built per item: insertion order id then uuid. -/

structure QrData where
  id : String
  uuid : String
  deriving DecidableEq, Repr

/-- Item produced by getNotionData's map (notionQRGenerator.js 53-61). -/

structure BatchItem where
  nativeId : String
  id : String
  uuid : String
  qrCodeData : QrData
  deriving DecidableEq, Repr

/-- Per-item mapping body of getNotionData: reads the UUID formula string
then the ID unique_id; a missing property makes the JS property access
throw a TypeError, modelled as Except.error. -/

def extractItem (it : NotionItem) : Except String BatchItem :=
  match it.uuidProp with
  | none => .error "TypeError"
  | some uuid =>
    match it.idProp with
    | none => .error "TypeError"
    | some uid =>
      .ok { nativeId := it.nativeId,
            id := uid.pfx ++ "-" ++ toString uid.num,
            uuid := uuid,
            qrCodeData := { id := uid.pfx ++ "-" ++ toString uid.num, uuid := uuid } }

/-- json.results.map(...) with JS exception semantics: the first throwing
item aborts the whole map, hence the whole collection. -/

def mapResults : List NotionItem → Except String (List BatchItem)
  | [] => .ok []
  | it :: rest =>
    match extractItem it with
    | .error e => .error e
    | .ok item =>
      match mapResults rest with
      | .error e => .error e
      | .ok items => .ok (item :: items)

/-- Escaping of one character as JSON.stringify performs it for the
character ranges that can occur in the identifier strings. -/

def jsEscapeChar (c : Char) : String :=
  if c = '\"' then "\\\""
  else if c = '\\' then "\\\\"
  else if c = '\n' then "\\n"
  else if c = '\t' then "\\t"
  else if c = '\r' then "\\r"
  else String.singleton c

/-- JSON string escaping. -/

def jsEscape (s : String) : String :=
  String.join (s.toList.map jsEscapeChar)

/-- A JSON string literal: quote, escaped content, quote. -/

def jsQuote (s : String) : String := "\"" ++ jsEscape s ++ "\""

/-- JSON.stringify of an object literal whose values are strings: fields
serialized in insertion order, separated by commas, no whitespace. -/

def stringifyStringObj (fields : List (String × String)) : String :=
  "\x7b" ++ String.intercalate ","
    (fields.map (fun kv => jsQuote kv.1 ++ ":" ++ jsQuote kv.2)) ++ "\x7d"

/-- The QR payload text: JSON.stringify(item.qrCodeData), where
qrCodeData was built as an object literal with fields id then uuid
(notionQRGenerator.js lines 59 and 93). -/

def qrText (d : QrData) : String :=
  stringifyStringObj [("id", d.id), ("uuid", d.uuid)]

/-- Artifact bytes: the encoder (QRCode.toDataURL composed with the
base64 extraction toBinary, lines 88-94) applied to the payload text.
The encoder itself is an external pure function (spec section 4.1) and is
taken as a parameter. -/

def artifactBytes (enc : String → List Nat) (d : QrData) : List Nat :=
  enc (qrText d)

/-- Remote call issued by the pipeline, carrying the parameter that names
its target and whether the call was issued inside limiter.schedule. -/

inductive RemoteCall where
  | databaseQuery (limited : Bool)
  | pageRetrieve (pageId : String) (limited : Bool)
  | uploadCreate (filename : String) (limited : Bool)
  | uploadSend (uploadId : String) (limited : Bool)
  | pageUpdate (target : String) (fileId : String) (limited : Bool)
  deriving DecidableEq, Repr

/-- Whether the call passed through the rate limiter. -/

def RemoteCall.limitedFlag : RemoteCall → Bool
  | .databaseQuery l => l
  | .pageRetrieve _ l => l
  | .uploadCreate _ l => l
  | .uploadSend _ l => l
  | .pageUpdate _ _ l => l

/-- Effect of limiter.schedule on a call issued by the wrapped thunk. -/

def RemoteCall.markLimited : RemoteCall → RemoteCall
  | .databaseQuery _ => .databaseQuery true
  | .pageRetrieve p _ => .pageRetrieve p true
  | .uploadCreate f _ => .uploadCreate f true
  | .uploadSend u _ => .uploadSend u true
  | .pageUpdate t f _ => .pageUpdate t f true

/-- limiter.schedule(() => thunk): the thunk's result is passed through
and every remote call it makes goes through the limiter. -/

def schedule {α : Type} (r : Except String α × List RemoteCall) :
    Except String α × List RemoteCall :=
  (r.1, r.2.map RemoteCall.markLimited)

/-- All calls of a trace passed through the limiter. -/

def callsAllLimited (cs : List RemoteCall) : Bool :=
  cs.all RemoteCall.limitedFlag

/-- Results the remote store returns to the orchestrator's three calls:
each models the outcome of the corresponding fetchWithRetry (the ok
value, or the error finally thrown). -/

structure OrchestratorEnv where
  uploadResult : String → Except String String
  sendResult : String → Except String String
  updateResult : String → String → Except String Unit

/-- notionUploadRequest (lines 65-85): requests a single_part upload slot
named item.id ++ ".png" and yields the uploadId. -/

def notionUploadRequest (env : OrchestratorEnv) (item : BatchItem) :
    Except String String × List RemoteCall :=
  (env.uploadResult (item.id ++ ".png"), [.uploadCreate (item.id ++ ".png") false])

/-- sendFileToNotion (lines 92-118): transmits the encoded artifact to
the reserved slot and yields the bound fileId. -/

def sendFileToNotion (env : OrchestratorEnv) (_item : BatchItem) (uploadId : String) :
    Except String String × List RemoteCall :=
  (env.sendResult uploadId, [.uploadSend uploadId false])

/-- updateNotionPage (lines 121-146): PATCH pages/item.uuid binding the
fileId — the URL target is the item's UUID formula value. -/

def updateNotionPage (env : OrchestratorEnv) (item : BatchItem) (fileId : String) :
    Except String Unit × List RemoteCall :=
  (env.updateResult item.uuid fileId, [.pageUpdate item.uuid fileId false])

/-- Terminal outcome of one record's orchestrator run. -/

inductive Outcome where
  | success (itemId : String)
  | failed (itemId : String) (msg : String)
  deriving DecidableEq, Repr

/-- processItem (lines 149-158): the three steps in order, each inside
limiter.schedule; the catch turns the first thrown error into the logged
per-item failure, and later steps are not executed. -/

def processItem (env : OrchestratorEnv) (item : BatchItem) :
    Outcome × List RemoteCall :=
  match schedule (notionUploadRequest env item) with
  | (.error e, c1) => (.failed item.id e, c1)
  | (.ok uploadId, c1) =>
    match schedule (sendFileToNotion env item uploadId) with
    | (.error e, c2) => (.failed item.id e, c1 ++ c2)
    | (.ok fileId, c2) =>
      match schedule (updateNotionPage env item fileId) with
      | (.error e, c3) => (.failed item.id e, c1 ++ c2 ++ c3)
      | (.ok _, c3) => (.success item.id, c1 ++ c2 ++ c3)

/-- Result the remote store returns to the batch query. -/

structure BatchEnv where
  queryResult : Except String (List NotionItem)

/-- getNotionData (lines 33-62): one query call issued directly through
fetchWithRetry — not inside limiter.schedule — then the map over the
results. -/

def getNotionData (benv : BatchEnv) : Except String (List BatchItem) × List RemoteCall :=
  (match benv.queryResult with
   | .error e => .error e
   | .ok results => mapResults results,
   [.databaseQuery false])

/-- Main batch execution (lines 161-166): collect, then drive every item
through processItem. -/

def batchMain (benv : BatchEnv) (env : OrchestratorEnv) :
    Except String (List Outcome) × List RemoteCall :=
  match getNotionData benv with
  | (.error e, c0) => (.error e, c0)
  | (.ok items, c0) =>
    (.ok (items.map (fun it => (processItem env it).1)),
      c0 ++ (items.map (fun it => (processItem env it).2)).flatten)

/-- Shape of a parsed inbound webhook body: the optional handshake token,
the event type and the entity id, each absent when the JSON lacks the
field (so that reading payload.entity.id can throw). -/

structure EventPayload where
  verificationToken : Option String
  eventType : Option String
  entityId : Option String
  deriving DecidableEq, Repr

/-- An inbound HTTP request as the handler sees it: the method, the raw
unparsed body, and the x-notion-signature header when present. -/

structure WebhookRequest where
  method : String
  rawBody : String
  signatureHeader : Option String
  deriving DecidableEq, Repr

/-- External collaborators of the webhook handler: JSON.parse (none =
parse throws), the HMAC-SHA256 hex digest, the shared secret, and the
results the remote store returns to each call. -/

structure WebhookEnv where
  parse : String → Option EventPayload
  hmacHex : String → String → String
  secret : String
  retrieve : String → Except String NotionItem
  uploadResult : String → Except String String
  sendResult : String → Except String String
  updateResult : String → String → Except String Unit

/-- Response produced by one handler invocation together with the remote
calls made while producing it. -/

structure HandlerResult where
  status : Nat
  body : String
  calls : List RemoteCall
  deriving DecidableEq, Repr

/-- Body of the try block after the handshake check (handler lines
222-316): signature check, event filtering, record lookup, then the
three-step upload pipeline, every remote call inside limiter.schedule.
The update call targets pageId, the event's entity id. -/

def handlerAfterHandshake (env : WebhookEnv) (req : WebhookRequest)
    (payload : EventPayload) : Except String (Nat × String) × List RemoteCall :=
  if req.signatureHeader ≠ some ("sha256=" ++ env.hmacHex env.secret req.rawBody) then
    (.ok (401, ""), [])
  else if payload.eventType ≠ some "page.created" then (.ok (200, ""), [])
  else
    match payload.entityId with
    | none => (.error "TypeError", [])
    | some pageId =>
      match env.retrieve pageId with
      | .error e => (.error e, [.pageRetrieve pageId true])
      | .ok page =>
        match page.idProp with
        | none => (.error "TypeError", [.pageRetrieve pageId true])
        | some uid =>
          match page.uuidProp with
          | none => (.error "TypeError", [.pageRetrieve pageId true])
          | some _uuid =>
            match env.uploadResult (uid.pfx ++ "-" ++ toString uid.num ++ ".png") with
            | .error e => (.error e, [.pageRetrieve pageId true,
                .uploadCreate (uid.pfx ++ "-" ++ toString uid.num ++ ".png") true])
            | .ok uploadId =>
              match env.sendResult uploadId with
              | .error e => (.error e, [.pageRetrieve pageId true,
                  .uploadCreate (uid.pfx ++ "-" ++ toString uid.num ++ ".png") true,
                  .uploadSend uploadId true])
              | .ok fileId =>
                match env.updateResult pageId fileId with
                | .error e => (.error e, [.pageRetrieve pageId true,
                    .uploadCreate (uid.pfx ++ "-" ++ toString uid.num ++ ".png") true,
                    .uploadSend uploadId true, .pageUpdate pageId fileId true])
                | .ok _ => (.ok (200, ""), [.pageRetrieve pageId true,
                    .uploadCreate (uid.pfx ++ "-" ++ toString uid.num ++ ".png") true,
                    .uploadSend uploadId true, .pageUpdate pageId fileId true])

/-- Try block of the handler (lines 207-316): method check, JSON.parse of
the raw body, handshake echo when the payload carries a truthy
verification_token, then the signed-event path. -/

def handlerCore (env : WebhookEnv) (req : WebhookRequest) :
    Except String (Nat × String) × List RemoteCall :=
  if req.method ≠ "POST" then
    (.ok (405, "\x7b\"error\":\"Method Not Allowed\"\x7d"), [])
  else
    match env.parse req.rawBody with
    | none => (.error "SyntaxError", [])
    | some payload =>
      match payload.verificationToken with
      | some tok =>
        if tok ≠ "" then (.ok (200, tok), [])
        else handlerAfterHandshake env req payload
      | none => handlerAfterHandshake env req payload

/-- The exported handler (lines 204-321): the try block's result, with
any thrown error caught and answered as 500 Internal error. Exactly one
response is produced per request. -/

def handler (env : WebhookEnv) (req : WebhookRequest) : HandlerResult :=
  match handlerCore env req with
  | (.ok (s, b), calls) => ⟨s, b, calls⟩
  | (.error _, calls) => ⟨500, "Internal error", calls⟩

/-- Demo orchestrator environment in which every remote call succeeds. -/

def oenvDemo : OrchestratorEnv :=
  ⟨fun _ => .ok "up1", fun _ => .ok "file1", fun _ _ => .ok ()⟩

/-- Demo orchestrator environment whose transmission call fails. -/

def oenvSendFails : OrchestratorEnv :=
  ⟨fun _ => .ok "up1", fun _ => .error "Failed after 3 attempts: send", fun _ _ => .ok ()⟩

/-- Demo batch environment: the query returns one well-formed record. -/

def benvDemo : BatchEnv := ⟨.ok [⟨"page-123", some "uuid-456", some ⟨"INV", 7⟩⟩]⟩

/-- Demo webhook environment: parse succeeds with a page.created event,
the digest is the fixed hex text aaaa, and the remote store answers every
call. -/

def wenvDemo : WebhookEnv :=
  ⟨fun _ => some ⟨none, some "page.created", some "page-123"⟩,
   fun _ _ => "aaaa", "secret",
   fun _ => .ok ⟨"page-123", some "uuid-456", some ⟨"INV", 7⟩⟩,
   fun _ => .ok "up1", fun _ => .ok "file1", fun _ _ => .ok ()⟩

/-- Demo webhook environment whose body parse throws. -/

def wenvNoParse : WebhookEnv :=
  ⟨fun _ => none, fun _ _ => "aaaa", "secret",
   fun _ => .error "x", fun _ => .error "x", fun _ => .error "x", fun _ _ => .error "x"⟩

/-- Demo POST request carrying the signature the demo digest expects. -/

def reqSigned : WebhookRequest := ⟨"POST", "body", some "sha256=aaaa"⟩

/-- Demo POST request with a non-matching signature header. -/

def reqBadSig : WebhookRequest := ⟨"POST", "body", some "sha256=bbbb"⟩

/-- Modelled from the spec: the Rate Budget of the Rate Limiter /
Admission Controller (spec sections 3 and 4.3). The Bottleneck library
that implements it is an external dependency, not part of this
repository's sources; only its configuration (reservoir 3, refresh 3 per
1000 ms window, maxConcurrent 1 or 3) appears in src. The budget holds a
refillable token count and a concurrency counter, mutated only through
acquire / release / refill. -/

structure LimiterConfig where
  maxConcurrent : Nat
  reservoirCeiling : Nat
  deriving DecidableEq, Repr

/-- Modelled from the spec: the mutable Rate Budget state — permits
currently outstanding, tokens left in the current refill window, and
tokens consumed in the current window. -/

structure LimiterState where
  outstanding : Nat
  tokens : Nat
  usedThisWindow : Nat
  deriving DecidableEq, Repr

/-- Events mutating the Rate Budget: a caller acquiring a permit, a
caller releasing its permit, and the scheduled window refill. -/

inductive LimiterEvent where
  | acquire
  | release
  | refill
  deriving DecidableEq, Repr

/-- Initial budget: no permits outstanding, a full reservoir. -/

def limiterInit (cfg : LimiterConfig) : LimiterState :=
  ⟨0, cfg.reservoirCeiling, 0⟩

/-- Modelled from the spec: one budget transition. acquire grants a
permit only when a concurrency slot and a token are both available —
otherwise the caller suspends, so no trace contains that acquire; release
returns an outstanding permit; refill restores the reservoir and starts a
new window. -/

def limiterStep (cfg : LimiterConfig) (s : LimiterState) :
    LimiterEvent → Option LimiterState
  | .acquire =>
    if s.outstanding < cfg.maxConcurrent ∧ 0 < s.tokens then
      some ⟨s.outstanding + 1, s.tokens - 1, s.usedThisWindow + 1⟩
    else none
  | .release =>
    if 0 < s.outstanding then some ⟨s.outstanding - 1, s.tokens, s.usedThisWindow⟩
    else none
  | .refill => some ⟨s.outstanding, cfg.reservoirCeiling, 0⟩

/-- Execution of a submission pattern: the sequence of events that
actually ran, each enabled when it fired. -/

def limiterRun (cfg : LimiterConfig) : List LimiterEvent → LimiterState →
    Option LimiterState
  | [], s => some s
  | e :: es, s =>
    match limiterStep cfg s e with
    | none => none
    | some s2 => limiterRun cfg es s2

/-- Budget invariant: outstanding permits within the concurrency ceiling
and window consumption within the reservoir ceiling. -/

def limiterInv (cfg : LimiterConfig) (s : LimiterState) : Prop :=
  s.outstanding ≤ cfg.maxConcurrent ∧
  s.usedThisWindow ≤ cfg.reservoirCeiling ∧
  s.tokens + s.usedThisWindow ≤ cfg.reservoirCeiling

theorem runAttempts_cons_ok (u : String) (f : Nat → HttpResponse) (r d : Nat)
    (a : Nat) (rest : List Nat) (h : (f a).ok = true) :
    runAttempts u f r d (a :: rest) = ⟨.success (f a), 1, [], []⟩ := by
  conv_lhs => rw [runAttempts]
  simp [h]

theorem runAttempts_singleton_fail (u : String) (f : Nat → HttpResponse) (r d : Nat)
    (a : Nat) (h : (f a).ok = false) :
    runAttempts u f r d [a] =
      ⟨.failure ("Failed after " ++ toString r ++ " attempts: " ++ u),
        1, [], [((f a).status, (f a).body)]⟩ := by
  conv_lhs => rw [runAttempts]
  simp [h]

theorem runAttempts_cons_cons_fail (u : String) (f : Nat → HttpResponse) (r d : Nat)
    (a b : Nat) (rest2 : List Nat) (h : (f a).ok = false) :
    runAttempts u f r d (a :: b :: rest2) =
      ⟨(runAttempts u f r d (b :: rest2)).result,
        (runAttempts u f r d (b :: rest2)).attemptsMade + 1,
        d * a :: (runAttempts u f r d (b :: rest2)).waits,
        ((f a).status, (f a).body) :: (runAttempts u f r d (b :: rest2)).logs⟩ := by
  conv_lhs => rw [runAttempts]
  simp [h]

theorem runAttempts_attempts_le (u : String) (f : Nat → HttpResponse) (r d : Nat) :
    ∀ l : List Nat, (runAttempts u f r d l).attemptsMade ≤ l.length := by
  intro l
  induction l with
  | nil => simp [runAttempts]
  | cons a rest ih =>
    simp only [runAttempts, List.length_cons]
    split
    · simp
    · split
      · simp
      · simpa using Nat.succ_le_succ ih

theorem runAttempts_attempts_pos (u : String) (f : Nat → HttpResponse) (r d : Nat)
    (a : Nat) (rest : List Nat) :
    1 ≤ (runAttempts u f r d (a :: rest)).attemptsMade := by
  simp only [runAttempts]
  split
  · simp
  · split
    · simp
    · simp

theorem runAttempts_waits_eq (u : String) (f : Nat → HttpResponse) (r d : Nat) :
    ∀ l : List Nat, (runAttempts u f r d l).waits =
      (l.take ((runAttempts u f r d l).attemptsMade - 1)).map (fun a => d * a) := by
  intro l
  induction l with
  | nil => simp [runAttempts]
  | cons a rest ih =>
    by_cases hok : (f a).ok = true
    · rw [runAttempts_cons_ok u f r d a rest hok]
      simp
    · have hok2 : (f a).ok = false := by simpa using hok
      cases rest with
      | nil =>
        rw [runAttempts_singleton_fail u f r d a hok2]
        simp
      | cons b rest2 =>
        have hpos : 1 ≤ (runAttempts u f r d (b :: rest2)).attemptsMade :=
          runAttempts_attempts_pos u f r d b rest2
        obtain ⟨n, hn⟩ : ∃ n, (runAttempts u f r d (b :: rest2)).attemptsMade = n + 1 :=
          ⟨(runAttempts u f r d (b :: rest2)).attemptsMade - 1,
            (Nat.sub_add_cancel hpos).symm⟩
        rw [runAttempts_cons_cons_fail u f r d a b rest2 hok2]
        simp only
        rw [ih, hn]
        simp

theorem runAttempts_all_fail (u : String) (f : Nat → HttpResponse) (r d : Nat)
    (hf : ∀ a, (f a).ok = false) :
    ∀ l : List Nat, l ≠ [] →
      (runAttempts u f r d l).result =
        .failure ("Failed after " ++ toString r ++ " attempts: " ++ u) ∧
      (runAttempts u f r d l).logs = l.map (fun a => ((f a).status, (f a).body)) := by
  intro l
  induction l with
  | nil => simp
  | cons a rest ih =>
    intro _
    cases rest with
    | nil =>
      rw [runAttempts_singleton_fail u f r d a (hf a)]
      simp
    | cons b rest2 =>
      have h2 := ih (by simp)
      rw [runAttempts_cons_cons_fail u f r d a b rest2 (hf a)]
      simp [h2.1, h2.2]

/-- C2, amended: fetchWithRetry attempts the request at most R times, the
waits between consecutive attempts are delay × attemptNumber over the
attempts actually performed (hence non-decreasing), and when every attempt
fails the thrown error carries the retry count and the URL, while the last
observed status and body are recorded in the per-attempt diagnostic log,
not in the error. -/
theorem fetchWithRetry_bounds_and_exhaustion (url : String)
    (respond : Nat → HttpResponse) (retries delay : Nat) :
    (fetchWithRetry url respond retries delay).attemptsMade ≤ retries ∧
    (fetchWithRetry url respond retries delay).waits =
      ((List.range' 1 retries).take
        ((fetchWithRetry url respond retries delay).attemptsMade - 1)).map
        (fun a => delay * a) ∧
    (fetchWithRetry url respond retries delay).waits.Chain' (· ≤ ·) ∧
    ((∀ a, (respond a).ok = false) → 1 ≤ retries →
      (fetchWithRetry url respond retries delay).result =
        .failure ("Failed after " ++ toString retries ++ " attempts: " ++ url) ∧
      (fetchWithRetry url respond retries delay).logs =
        (List.range' 1 retries).map
          (fun a => ((respond a).status, (respond a).body))) := by
  refine ⟨?_, ?_, ?_, ?_⟩
  · have h := runAttempts_attempts_le url respond retries delay (List.range' 1 retries)
    simpa [fetchWithRetry] using h
  · exact runAttempts_waits_eq url respond retries delay (List.range' 1 retries)
  · simp only [fetchWithRetry]
    rw [runAttempts_waits_eq url respond retries delay (List.range' 1 retries)]
    refine List.Pairwise.chain' ?_
    refine List.Pairwise.map _ (fun a b hab => Nat.mul_le_mul_left delay hab) ?_
    refine List.Pairwise.imp le_of_lt ?_
    exact (List.pairwise_lt_range' 1 retries).sublist (List.take_sublist _ _)
  · intro hf hr
    have hne : List.range' 1 retries ≠ [] := by
      cases retries with
      | zero => exact absurd hr (by simp)
      | succ n => simp [List.range']
    exact runAttempts_all_fail url respond retries delay hf (List.range' 1 retries) hne

/-- C2 witness: at a concrete always-failing input the theorem's bounds,
wait schedule and exhaustion behaviour all evaluate. -/
theorem fetchWithRetry_bounds_and_exhaustion_witness :
    (fetchWithRetry "u" (fun _ => ⟨false, 503, "oops"⟩) 2 5).attemptsMade ≤ 2 ∧
    (fetchWithRetry "u" (fun _ => ⟨false, 503, "oops"⟩) 2 5).result =
      .failure "Failed after 2 attempts: u" ∧
    (fetchWithRetry "u" (fun _ => ⟨false, 503, "oops"⟩) 2 5).logs =
      [(503, "oops"), (503, "oops")] := by
  have h := fetchWithRetry_bounds_and_exhaustion "u"
    (fun _ => ⟨false, 503, "oops"⟩) 2 5
  have h4 := h.2.2.2 (fun _ => rfl) (by decide)
  exact ⟨h.1, by simpa using h4.1, by simpa using h4.2⟩

/-- C2 counterexample: the claim says the exhaustion error carries the
last observed response status and body; at this concrete input the thrown
error message is fixed text naming only the retry count and URL, and
contains neither the status 503 nor the body text. -/
theorem fetchWithRetry_error_lacks_status_counterexample :
    (fetchWithRetry "u" (fun _ => ⟨false, 503, "oops"⟩) 2 5).result =
      .failure "Failed after 2 attempts: u" ∧
    strContains "Failed after 2 attempts: u" "503" = false ∧
    strContains "Failed after 2 attempts: u" "oops" = false :=
  ⟨rfl, rfl, rfl⟩

theorem extractItem_ok_props (it : NotionItem) (item : BatchItem)
    (h : extractItem it = .ok item) : it.uuidProp ≠ none ∧ it.idProp ≠ none := by
  unfold extractItem at h
  cases hu : it.uuidProp with
  | none => rw [hu] at h; cases h
  | some u =>
    cases hi : it.idProp with
    | none => rw [hu, hi] at h; cases h
    | some i => exact ⟨by simp [hu], by simp [hi]⟩

theorem extractItem_some (it : NotionItem) (u : String) (i : NotionUniqueId)
    (hu : it.uuidProp = some u) (hi : it.idProp = some i) :
    extractItem it = .ok ⟨it.nativeId, i.pfx ++ "-" ++ toString i.num, u,
      ⟨i.pfx ++ "-" ++ toString i.num, u⟩⟩ := by
  unfold extractItem
  rw [hu, hi]

/-- C3, amended: when every record of the batch carries both the UUID
formula and the unique_id property, the collector maps each record to a
reference; but a single record lacking either property throws during the
map, aborting collection of the whole batch — no per-record skipping
takes place. -/
theorem mapResults_all_good_or_abort (results : List NotionItem) :
    ((∀ it ∈ results, it.uuidProp ≠ none ∧ it.idProp ≠ none) →
      ∃ refs, mapResults results = .ok refs ∧ refs.length = results.length) ∧
    ((∃ it ∈ results, it.uuidProp = none ∨ it.idProp = none) →
      ∃ e, mapResults results = .error e) := by
  induction results with
  | nil =>
    constructor
    · intro _
      exact ⟨[], rfl, rfl⟩
    · rintro ⟨it, hmem, _⟩
      simp at hmem
  | cons a rest ih =>
    constructor
    · intro hall
      obtain ⟨u, hu⟩ := Option.ne_none_iff_exists'.mp (hall a (by simp)).1
      obtain ⟨i, hi⟩ := Option.ne_none_iff_exists'.mp (hall a (by simp)).2
      obtain ⟨refs, hrefs, hlen⟩ := ih.1 (fun it hit => hall it (by simp [hit]))
      refine ⟨⟨a.nativeId, i.pfx ++ "-" ++ toString i.num, u,
        ⟨i.pfx ++ "-" ++ toString i.num, u⟩⟩ :: refs, ?_, ?_⟩
      · simp [mapResults, extractItem_some a u i hu hi, hrefs]
      · simp [hlen]
    · rintro ⟨it, hmem, hbad⟩
      rcases List.mem_cons.mp hmem with rfl | hit2
      · rcases hbad with hb | hb
        · exact ⟨"TypeError", by simp [mapResults, extractItem, hb]⟩
        · cases hu : it.uuidProp with
          | none => exact ⟨"TypeError", by simp [mapResults, extractItem, hu]⟩
          | some u =>
            exact ⟨"TypeError", by simp [mapResults, extractItem, hu, hb]⟩
      · cases hx : extractItem a with
        | error e => exact ⟨e, by simp [mapResults, hx]⟩
        | ok item =>
          obtain ⟨e, he⟩ := ih.2 ⟨it, hit2, hbad⟩
          exact ⟨e, by simp [mapResults, hx, he]⟩

/-- C3 witness: a concrete two-record batch where both records carry both
properties collects both references. -/
theorem mapResults_all_good_or_abort_witness :
    ∃ refs, mapResults
      [⟨"p1", some "u1", some ⟨"INV", 7⟩⟩, ⟨"p2", some "u2", some ⟨"INV", 8⟩⟩] = .ok refs ∧
      refs.length = 2 :=
  (mapResults_all_good_or_abort
    [⟨"p1", some "u1", some ⟨"INV", 7⟩⟩, ⟨"p2", some "u2", some ⟨"INV", 8⟩⟩]).1
    (by decide)

/-- C3 counterexample: a batch whose first record lacks the UUID property
and whose second record is well-formed does not produce a reference
sequence at all — the map throws and collection is aborted, contrary to
the claim that exactly the defective record is omitted and the remainder
still yields references. -/
theorem mapResults_aborts_counterexample :
    mapResults [⟨"p1", none, some ⟨"INV", 7⟩⟩, ⟨"p2", some "u2", some ⟨"INV", 8⟩⟩] =
      .error "TypeError" := rfl

theorem stringifyStringObj_pair (a b : String) :
    stringifyStringObj [("id", a), ("uuid", b)] =
      "\x7b\"id\":\"" ++ jsEscape a ++ "\",\"uuid\":\"" ++ jsEscape b ++ "\"\x7d" := by
  have hi : ∀ x y : String, String.intercalate "," [x, y] = x ++ "," ++ y :=
    fun x y => rfl
  apply String.ext
  simp [stringifyStringObj, jsQuote, hi, String.data_append]
  have e1 : ("\x7b\"id\":\"" : String).data = ['\x7b', '\"', 'i', 'd', '\"', ':', '\"'] := rfl
  have e2 : ("\",\"uuid\":\"" : String).data =
    ['\"', ',', '\"', 'u', 'u', 'i', 'd', '\"', ':', '\"'] := rfl
  have e3 : ("\"\x7d" : String).data = ['\"', '\x7d'] := rfl
  have e4 : ("\x7b" : String).data = ['\x7b'] := rfl
  have e5 : ("\x7d" : String).data = ['\x7d'] := rfl
  have e6 : ("\"" : String).data = ['\"'] := rfl
  have e7 : (":" : String).data = [':'] := rfl
  have e8 : ("," : String).data = [','] := rfl
  have e9 : (jsEscape "id").data = ['i', 'd'] := rfl
  have e10 : (jsEscape "uuid").data = ['u', 'u', 'i', 'd'] := rfl
  simp [e1, e2, e3, e4, e5, e6, e7, e8, e9, e10]

/-- C6: the encoded payload is exactly the JSON text with field order id
(externalKey) then uuid (stableUuid), and the artifact bytes are a
deterministic function of the reference: identical references produce
byte-identical artifact content. -/
theorem qrText_exact_and_encode_deterministic (enc : String → List Nat)
    (d1 d2 : QrData) (h : d1 = d2) :
    qrText d1 = "\x7b\"id\":\"" ++ jsEscape d1.id ++ "\",\"uuid\":\"" ++
      jsEscape d1.uuid ++ "\"\x7d" ∧
    artifactBytes enc d1 = artifactBytes enc d2 :=
  ⟨stringifyStringObj_pair d1.id d1.uuid, by rw [h]⟩

/-- C6 witness: concrete reference, concrete payload text, identical
artifact bytes across two runs. -/
theorem qrText_exact_and_encode_deterministic_witness :
    qrText ⟨"INV-7", "u1"⟩ = "\x7b\"id\":\"INV-7\",\"uuid\":\"u1\"\x7d" ∧
    artifactBytes (fun s => s.data.map Char.toNat) ⟨"INV-7", "u1"⟩ =
      artifactBytes (fun s => s.data.map Char.toNat) ⟨"INV-7", "u1"⟩ := by
  have h := qrText_exact_and_encode_deterministic (fun s => s.data.map Char.toNat)
    ⟨"INV-7", "u1"⟩ ⟨"INV-7", "u1"⟩ rfl
  refine ⟨?_, h.2⟩
  rw [h.1]
  rfl

theorem limitedFlag_markLimited (c : RemoteCall) :
    (RemoteCall.markLimited c).limitedFlag = true := by
  cases c <;> rfl

theorem callsAllLimited_map_mark (cs : List RemoteCall) :
    callsAllLimited (cs.map RemoteCall.markLimited) = true := by
  simp [callsAllLimited, List.all_eq_true]
  intro c _
  exact limitedFlag_markLimited c

/-- Status of every non-throwing exit of the try block. -/
theorem handlerAfterHandshake_ok_status (env : WebhookEnv) (req : WebhookRequest)
    (payload : EventPayload) (s : Nat) (b : String) (calls : List RemoteCall)
    (h : handlerAfterHandshake env req payload = (.ok (s, b), calls)) :
    s = 401 ∨ s = 200 := by
  unfold handlerAfterHandshake at h
  repeat' split at h
  all_goals simp_all

theorem handlerCore_ok_status (env : WebhookEnv) (req : WebhookRequest)
    (s : Nat) (b : String) (calls : List RemoteCall)
    (h : handlerCore env req = (.ok (s, b), calls)) :
    s = 405 ∨ s = 200 ∨ s = 401 := by
  unfold handlerCore at h
  split at h
  · simp_all
  · split at h
    · simp_all
    · split at h
      · split at h
        · simp_all
        · rcases handlerAfterHandshake_ok_status env req _ s b calls h with h1 | h1
          · exact .inr (.inr h1)
          · exact .inr (.inl h1)
      · rcases handlerAfterHandshake_ok_status env req _ s b calls h with h1 | h1
        · exact .inr (.inr h1)
        · exact .inr (.inl h1)

/-- Every remote call the try block makes is inside limiter.schedule. -/
theorem handlerAfterHandshake_calls_limited (env : WebhookEnv) (req : WebhookRequest)
    (payload : EventPayload) :
    callsAllLimited (handlerAfterHandshake env req payload).2 = true := by
  unfold handlerAfterHandshake
  repeat' split
  all_goals simp [callsAllLimited, RemoteCall.limitedFlag]

theorem handlerCore_calls_limited (env : WebhookEnv) (req : WebhookRequest) :
    callsAllLimited (handlerCore env req).2 = true := by
  unfold handlerCore
  split
  · simp [callsAllLimited]
  · split
    · simp [callsAllLimited]
    · split
      · split
        · simp [callsAllLimited]
        · exact handlerAfterHandshake_calls_limited env req _
      · exact handlerAfterHandshake_calls_limited env req _

/-- C7: when slot reservation succeeds and the transmission call fails
with error e, processItem ends after exactly the reservation call and the
send call — the bind update is never issued and the completed reservation
is not re-executed — and the record's terminal outcome is that
transmission failure. -/
theorem processItem_transmission_failure_stops (env : OrchestratorEnv)
    (item : BatchItem) (uploadId e : String)
    (hup : env.uploadResult (item.id ++ ".png") = .ok uploadId)
    (hsend : env.sendResult uploadId = .error e) :
    processItem env item = (.failed item.id e,
      [.uploadCreate (item.id ++ ".png") true, .uploadSend uploadId true]) := by
  simp [processItem, schedule, notionUploadRequest, sendFileToNotion, hup, hsend,
    RemoteCall.markLimited]

/-- C7 witness: concrete item and environment with a failing send. -/
theorem processItem_transmission_failure_stops_witness :
    processItem oenvSendFails ⟨"page-123", "INV-7", "uuid-456", ⟨"INV-7", "uuid-456"⟩⟩ =
      (.failed "INV-7" "Failed after 3 attempts: send",
        [.uploadCreate "INV-7.png" true, .uploadSend "up1" true]) :=
  processItem_transmission_failure_stops oenvSendFails
    ⟨"page-123", "INV-7", "uuid-456", ⟨"INV-7", "uuid-456"⟩⟩ "up1"
    "Failed after 3 attempts: send" rfl rfl

/-- C4: a POST whose body parses to an event without a verification token
and whose signature header differs from sha256= plus the hex HMAC of the
raw body under the shared secret is answered 401, and no remote call of
any kind is made while handling it. -/
theorem handler_bad_signature_401_no_calls (env : WebhookEnv) (req : WebhookRequest)
    (p : EventPayload)
    (hm : req.method = "POST")
    (hp : env.parse req.rawBody = some p)
    (ht : p.verificationToken = none)
    (hs : req.signatureHeader ≠ some ("sha256=" ++ env.hmacHex env.secret req.rawBody)) :
    handler env req = ⟨401, "", []⟩ := by
  simp [handler, handlerCore, handlerAfterHandshake, hm, hp, ht, hs]

/-- C4 witness: concrete wrong-signature request, concrete environment. -/
theorem handler_bad_signature_401_no_calls_witness :
    handler wenvDemo reqBadSig = ⟨401, "", []⟩ :=
  handler_bad_signature_401_no_calls wenvDemo reqBadSig
    ⟨none, some "page.created", some "page-123"⟩ rfl rfl rfl (by decide)

/-- C5, amended: a POST whose body is unparsable raises inside the try
block and is answered by the catch-all with status 500 and the generic
body — a server-error status, not a 4xx client-error status — with no
remote call made. -/
theorem handler_unparsable_body_500 (env : WebhookEnv) (req : WebhookRequest)
    (hm : req.method = "POST") (hp : env.parse req.rawBody = none) :
    handler env req = ⟨500, "Internal error", []⟩ ∧
    ¬(400 ≤ (handler env req).status ∧ (handler env req).status ≤ 499) := by
  have h : handler env req = ⟨500, "Internal error", []⟩ := by
    simp [handler, handlerCore, hm, hp]
  exact ⟨h, by rw [h]; decide⟩

/-- C5 witness: concrete unparsable-body request. -/
theorem handler_unparsable_body_500_witness :
    handler wenvNoParse reqSigned = ⟨500, "Internal error", []⟩ :=
  (handler_unparsable_body_500 wenvNoParse reqSigned rfl rfl).1

/-- C5 counterexample: the claim requires a client-error (4xx) response
to an unparsable body; at this concrete request the handler answers 500,
which is not in the 4xx range. -/
theorem handler_unparsable_not_4xx_counterexample :
    (handler wenvNoParse reqSigned).status = 500 ∧
    ¬(400 ≤ (handler wenvNoParse reqSigned).status ∧
      (handler wenvNoParse reqSigned).status ≤ 499) := by decide

/-- C10: every request receives exactly one response (the handler is a
total function into one HandlerResult), its status lies in
200/401/405/500, and whenever the try block raises — non-JSON body,
missing event or page fields, failed remote call — the catch answers 500
with the fixed generic body Internal error, carrying no failure detail,
and no exception propagates to the server harness. -/
theorem handler_one_response_status_and_catch (env : WebhookEnv) (req : WebhookRequest) :
    ((handler env req).status = 200 ∨ (handler env req).status = 401 ∨
      (handler env req).status = 405 ∨ (handler env req).status = 500) ∧
    (∀ e calls, handlerCore env req = (.error e, calls) →
      handler env req = ⟨500, "Internal error", calls⟩) := by
  constructor
  · rcases hc : handlerCore env req with ⟨r, calls⟩
    cases r with
    | error e => simp [handler, hc]
    | ok sb =>
      rcases sb with ⟨s, b⟩
      have hst := handlerCore_ok_status env req s b calls hc
      simp only [handler, hc]
      tauto
  · intro e calls hc
    simp [handler, hc]

/-- C10 witness: at a request whose body does not parse, the try block
raises and the response is the generic 500. -/
theorem handler_one_response_status_and_catch_witness :
    ((handler wenvNoParse reqSigned).status = 200 ∨
      (handler wenvNoParse reqSigned).status = 401 ∨
      (handler wenvNoParse reqSigned).status = 405 ∨
      (handler wenvNoParse reqSigned).status = 500) ∧
    handler wenvNoParse reqSigned = ⟨500, "Internal error", []⟩ := by
  have h := handler_one_response_status_and_catch wenvNoParse reqSigned
  exact ⟨h.1, h.2 "SyntaxError" [] rfl⟩

/-- C1, amended: every remote call of the Orchestrator's three per-record
steps and every remote call made by the webhook handler is issued inside
limiter.schedule, but the Batch Collector's query is issued directly
through fetchWithRetry, outside the limiter. -/
theorem orchestrator_webhook_limited_batch_query_not (env : OrchestratorEnv)
    (item : BatchItem) (wenv : WebhookEnv) (req : WebhookRequest) (benv : BatchEnv) :
    callsAllLimited (processItem env item).2 = true ∧
    callsAllLimited (handler wenv req).calls = true ∧
    (getNotionData benv).2 = [.databaseQuery false] := by
  refine ⟨?_, ?_, rfl⟩
  · cases hu : env.uploadResult (item.id ++ ".png") with
    | error e =>
      simp [processItem, schedule, notionUploadRequest, callsAllLimited,
        RemoteCall.markLimited, RemoteCall.limitedFlag, hu]
    | ok uploadId =>
      cases hs : env.sendResult uploadId with
      | error e =>
        simp [processItem, schedule, notionUploadRequest, sendFileToNotion,
          callsAllLimited, RemoteCall.markLimited, RemoteCall.limitedFlag, hu, hs]
      | ok fileId =>
        cases hup : env.updateResult item.uuid fileId with
        | error e =>
          simp [processItem, schedule, notionUploadRequest, sendFileToNotion,
            updateNotionPage, callsAllLimited, RemoteCall.markLimited,
            RemoteCall.limitedFlag, hu, hs, hup]
        | ok u =>
          simp [processItem, schedule, notionUploadRequest, sendFileToNotion,
            updateNotionPage, callsAllLimited, RemoteCall.markLimited,
            RemoteCall.limitedFlag, hu, hs, hup]
  · have h := handlerCore_calls_limited wenv req
    rcases hc : handlerCore wenv req with ⟨r, calls⟩
    rw [hc] at h
    cases r with
    | error e => simpa [handler, hc] using h
    | ok sb =>
      rcases sb with ⟨s, b⟩
      simpa [handler, hc] using h

/-- C1 counterexample: in a concrete batch run the first remote call is
the Batch Collector's query, issued outside the limiter, so not every
remote call of the pipeline passes through the acquire/release wrapper. -/
theorem batch_query_outside_limiter_counterexample :
    (batchMain benvDemo oenvDemo).2.head? = some (.databaseQuery false) ∧
    callsAllLimited (batchMain benvDemo oenvDemo).2 = false := by decide

/-- C9, amended: the webhook path's bind update addresses the record by
the native page id carried in the event entity, but the batch path's bind
update addresses pages/item.uuid — the stableUuid extracted from the UUID
formula property — not a native record id; externalKey appears only in
the payload and the filename. -/
theorem update_target_batch_uuid_webhook_native (env : OrchestratorEnv)
    (item : BatchItem) (fileId : String)
    (wenv : WebhookEnv) (req : WebhookRequest) (p : EventPayload)
    (pageId uploadId fid uuid : String) (uid : NotionUniqueId) (page : NotionItem)
    (hm : req.method = "POST") (hp : wenv.parse req.rawBody = some p)
    (ht : p.verificationToken = none)
    (hs : req.signatureHeader = some ("sha256=" ++ wenv.hmacHex wenv.secret req.rawBody))
    (hev : p.eventType = some "page.created") (hent : p.entityId = some pageId)
    (hretr : wenv.retrieve pageId = .ok page)
    (hid : page.idProp = some uid) (huuid : page.uuidProp = some uuid)
    (hupload : wenv.uploadResult (uid.pfx ++ "-" ++ toString uid.num ++ ".png") =
      .ok uploadId)
    (hsend : wenv.sendResult uploadId = .ok fid)
    (hupdate : wenv.updateResult pageId fid = .ok ()) :
    (updateNotionPage env item fileId).2 = [.pageUpdate item.uuid fileId false] ∧
    handler wenv req = ⟨200, "", [.pageRetrieve pageId true,
      .uploadCreate (uid.pfx ++ "-" ++ toString uid.num ++ ".png") true,
      .uploadSend uploadId true, .pageUpdate pageId fid true]⟩ := by
  constructor
  · rfl
  · simp [handler, handlerCore, handlerAfterHandshake, hm, hp, ht, hs, hev, hent,
      hretr, hid, huuid, hupload, hsend, hupdate]

/-- C9 witness: concrete successful runs of both paths. -/
theorem update_target_batch_uuid_webhook_native_witness :
    (updateNotionPage oenvDemo ⟨"page-123", "INV-7", "uuid-456", ⟨"INV-7", "uuid-456"⟩⟩
      "file1").2 = [.pageUpdate "uuid-456" "file1" false] ∧
    handler wenvDemo reqSigned = ⟨200, "", [.pageRetrieve "page-123" true,
      .uploadCreate "INV-7.png" true, .uploadSend "up1" true,
      .pageUpdate "page-123" "file1" true]⟩ := by
  have h := update_target_batch_uuid_webhook_native oenvDemo
    ⟨"page-123", "INV-7", "uuid-456", ⟨"INV-7", "uuid-456"⟩⟩ "file1"
    wenvDemo reqSigned ⟨none, some "page.created", some "page-123"⟩
    "page-123" "up1" "file1" "uuid-456" ⟨"INV", 7⟩
    ⟨"page-123", some "uuid-456", some ⟨"INV", 7⟩⟩
    rfl rfl rfl (by decide) rfl rfl rfl rfl rfl rfl rfl rfl
  exact ⟨h.1, h.2.trans (by decide)⟩

/-- C9 counterexample: a concrete record whose native page id differs
from its UUID formula value; the batch pipeline's bind update targets the
uuid, not the native id, so the stableUuid is used as the update target
rather than only inside the encoded payload. -/
theorem batch_update_targets_uuid_counterexample :
    extractItem ⟨"page-123", some "uuid-456", some ⟨"INV", 7⟩⟩ =
      .ok ⟨"page-123", "INV-7", "uuid-456", ⟨"INV-7", "uuid-456"⟩⟩ ∧
    (processItem oenvDemo ⟨"page-123", "INV-7", "uuid-456", ⟨"INV-7", "uuid-456"⟩⟩).2 =
      [.uploadCreate "INV-7.png" true, .uploadSend "up1" true,
        .pageUpdate "uuid-456" "file1" true] ∧
    ("uuid-456" : String) ≠ "page-123" :=
  ⟨rfl, rfl, by decide⟩

theorem limiterInv_init (cfg : LimiterConfig) : limiterInv cfg (limiterInit cfg) := by
  refine ⟨Nat.zero_le _, Nat.zero_le _, ?_⟩
  simp [limiterInit]

theorem limiterInv_step (cfg : LimiterConfig) (s s2 : LimiterState) (e : LimiterEvent)
    (hinv : limiterInv cfg s) (hstep : limiterStep cfg s e = some s2) :
    limiterInv cfg s2 := by
  obtain ⟨h1, h2, h3⟩ := hinv
  cases e with
  | acquire =>
    simp only [limiterStep] at hstep
    split at hstep
    · rename_i hcond
      cases hstep
      refine ⟨hcond.1, ?_, ?_⟩
      · show s.usedThisWindow + 1 ≤ cfg.reservoirCeiling
        omega
      · show s.tokens - 1 + (s.usedThisWindow + 1) ≤ cfg.reservoirCeiling
        omega
    · cases hstep
  | release =>
    simp only [limiterStep] at hstep
    split at hstep
    · cases hstep
      refine ⟨?_, h2, h3⟩
      show s.outstanding - 1 ≤ cfg.maxConcurrent
      omega
    · cases hstep
  | refill =>
    simp only [limiterStep] at hstep
    cases hstep
    exact ⟨h1, Nat.zero_le _, by simp⟩

theorem limiterInv_run (cfg : LimiterConfig) :
    ∀ (evs : List LimiterEvent) (s s2 : LimiterState),
      limiterInv cfg s → limiterRun cfg evs s = some s2 → limiterInv cfg s2 := by
  intro evs
  induction evs with
  | nil =>
    intro s s2 hinv hrun
    cases hrun
    exact hinv
  | cons e es ih =>
    intro s s2 hinv hrun
    unfold limiterRun at hrun
    cases hstep : limiterStep cfg s e with
    | none => rw [hstep] at hrun; cases hrun
    | some smid =>
      rw [hstep] at hrun
      exact ih smid s2 (limiterInv_step cfg s smid e hinv hstep) hrun

/-- C8: under every submission pattern that executes from the initial
budget, the outstanding permits never exceed the concurrency ceiling and
the tokens consumed in the current refill window never exceed the window
ceiling. Since every instant of a run is the final state of some prefix
of the pattern, quantifying over all patterns covers every instant. -/
theorem limiter_ceilings_hold (cfg : LimiterConfig) (evs : List LimiterEvent)
    (s : LimiterState) (hrun : limiterRun cfg evs (limiterInit cfg) = some s) :
    s.outstanding ≤ cfg.maxConcurrent ∧ s.usedThisWindow ≤ cfg.reservoirCeiling := by
  have h := limiterInv_run cfg evs (limiterInit cfg) s (limiterInv_init cfg) hrun
  exact ⟨h.1, h.2.1⟩

/-- C8 witness: the configured budget (reservoir 3, maxConcurrent 3) run
over a concrete submission pattern. -/
theorem limiter_ceilings_hold_witness :
    limiterRun ⟨3, 3⟩ [.acquire, .acquire, .release, .acquire, .refill, .acquire]
      (limiterInit ⟨3, 3⟩) = some ⟨3, 2, 1⟩ ∧
    (3 ≤ 3 ∧ 1 ≤ 3) := by
  constructor
  · decide
  · exact limiter_ceilings_hold ⟨3, 3⟩
      [.acquire, .acquire, .release, .acquire, .refill, .acquire] ⟨3, 2, 1⟩ (by decide)

end QrPipeline
